import Mathlib

/-!
# PasswordlessAuth: base64 helpers and the two WebAuthn ceremony handlers

A shallow embedding of `src/src/components/PasswordlessAuth.jsx`.

* A `Uint8Array` / `ArrayBuffer` is a list of bytes (`Fin 256`).
* A JavaScript string is a Lean `String`; `btoa` / `atob` follow the WHATWG
  definitions (forgiving-base64 encode / decode) and may throw.
* A spread call `f(...xs)` passes one argument per element and throws
  `RangeError` when the engine's limit on arguments is exceeded; the limit is
  a property of the `Engine`.
* The handlers run in `Js`, a state-and-exception monad over `World`, the
  browser state they touch: `localStorage`, the random source, the alerts
  shown, the console, and the calls made to `navigator.credentials`.
-/

namespace PasswordlessAuth

/-! ## Bytes and JavaScript errors -/

/-- One element of a `Uint8Array`. -/
abbrev Byte := Fin 256

/-- Errors thrown by the built-ins the component uses. -/
inductive JsError where
  /-- The `DOMException` raised by `btoa` and `atob`. -/
  | invalidCharacterError
  /-- Reading a property of `null`. -/
  | typeError
  /-- A call with more arguments than the engine accepts. -/
  | rangeError
  /-- A rejection of a `navigator.credentials` promise (NotAllowedError, ...). -/
  | domException (name : String)
  deriving DecidableEq, Repr

deriving instance DecidableEq for Except

/-- The JavaScript engine the page runs on. One property of it matters here:
how many arguments a call may take. A call that spreads a longer array throws
`RangeError`. The number differs between engines (65536 on JavaScriptCore,
about 120000 on V8, more on SpiderMonkey), so it is a field; none is below
65535. -/
structure Engine where
  maxArguments : Nat
  supported : 65535 ≤ maxArguments

/-- An engine with the lowest limit in use, 65536 arguments. -/
def Engine.reference : Engine :=
  { maxArguments := 65536, supported := by decide }

/-! ## btoa / atob -/

/-- The base64 alphabet of RFC 4648, table 1. -/
def base64Alphabet : List Char :=
  ['A', 'B', 'C', 'D', 'E', 'F', 'G', 'H', 'I', 'J', 'K', 'L', 'M',
   'N', 'O', 'P', 'Q', 'R', 'S', 'T', 'U', 'V', 'W', 'X', 'Y', 'Z',
   'a', 'b', 'c', 'd', 'e', 'f', 'g', 'h', 'i', 'j', 'k', 'l', 'm',
   'n', 'o', 'p', 'q', 'r', 's', 't', 'u', 'v', 'w', 'x', 'y', 'z',
   '0', '1', '2', '3', '4', '5', '6', '7', '8', '9', '+', '/']

/-- The character that stands for a 6-bit value. -/
def sextetToChar (n : Nat) : Char := base64Alphabet.getD n 'A'

/-- The 6-bit value a character stands for, if it is in the alphabet. -/
def charToSextet (c : Char) : Option Nat :=
  let i := base64Alphabet.indexOf c
  if i < 64 then some i else none

/-- Forgiving-base64 encode: three bytes become four characters, a final
group of one or two bytes is padded with `=`. -/
def base64Encode : List Nat → List Char
  | a :: b :: c :: rest =>
      let n := a * 65536 + b * 256 + c
      sextetToChar (n / 262144) :: sextetToChar (n / 4096 % 64) ::
        sextetToChar (n / 64 % 64) :: sextetToChar (n % 64) :: base64Encode rest
  | [a, b] =>
      let n := a * 65536 + b * 256
      [sextetToChar (n / 262144), sextetToChar (n / 4096 % 64), sextetToChar (n / 64 % 64), '=']
  | [a] =>
      let n := a * 65536
      [sextetToChar (n / 262144), sextetToChar (n / 4096 % 64), '=', '=']
  | [] => []

/-- Built-in `btoa`: throws when the string has a code unit above 0xFF,
otherwise base64-encodes the code units as bytes. -/
def btoa (data : String) : Except JsError String :=
  if data.data.all (fun c => c.toNat ≤ 255) then
    .ok (String.mk (base64Encode (data.data.map Char.toNat)))
  else
    .error .invalidCharacterError

/-- ASCII whitespace: TAB, LF, FF, CR and SPACE. -/
def isAsciiWhitespace (c : Char) : Bool :=
  c.toNat = 9 || c.toNat = 10 || c.toNat = 12 || c.toNat = 13 || c.toNat = 32

/-- Step 2 of forgiving-base64 decode: drop one or two trailing `=`. -/
def removeTrailingEquals (data : List Char) : List Char :=
  if data.getLast? = some '=' then
    let d := data.dropLast
    if d.getLast? = some '=' then d.dropLast else d
  else data

/-- The 6-bit values of a run of alphabet characters; `none` when a character
is outside the alphabet. -/
def decodeSextets : List Char → Option (List Nat)
  | [] => some []
  | c :: cs =>
      match charToSextet c, decodeSextets cs with
      | some s, some ss => some (s :: ss)
      | _, _ => none

/-- Four 6-bit values become three bytes; a final group of three gives two
bytes (the last two bits dropped) and a final group of two gives one byte
(the last four bits dropped). -/
def sextetsToBytes : List Nat → List Nat
  | a :: b :: c :: d :: rest =>
      let n := a * 262144 + b * 4096 + c * 64 + d
      (n / 65536) :: (n / 256 % 256) :: (n % 256) :: sextetsToBytes rest
  | [a, b, c] =>
      let n := (a * 4096 + b * 64 + c) / 4
      [n / 256, n % 256]
  | [a, b] => [(a * 64 + b) / 16]
  | _ => []

/-- Forgiving-base64 decode (WHATWG Infra). -/
def forgivingBase64Decode (data : List Char) : Option (List Nat) :=
  let data := data.filter (fun c => !isAsciiWhitespace c)
  let data := if data.length % 4 = 0 then removeTrailingEquals data else data
  if data.length % 4 = 1 then none
  else (decodeSextets data).map sextetsToBytes

/-- Built-in `atob`: the decoded bytes as a string of code points below 256,
or an `InvalidCharacterError`. -/
def atob (data : String) : Except JsError String :=
  match forgivingBase64Decode data.data with
  | some bytes => .ok (String.mk (bytes.map Char.ofNat))
  | none => .error .invalidCharacterError

/-- `String.fromCharCode(...bytes)`: the spread passes one argument per byte,
so the call throws `RangeError` above the engine's limit; otherwise the result
has one code unit per byte. -/
def stringFromCharCode (engine : Engine) (bytes : List Byte) : Except JsError String :=
  if bytes.length ≤ engine.maxArguments then
    .ok (String.mk (bytes.map (fun b => Char.ofNat b.val)))
  else
    .error .rangeError

/-- `new Uint8Array(x)` for `x` an `ArrayBuffer` or `undefined`. -/
def newUint8Array : Option (List Byte) → List Byte
  | some bytes => bytes
  | none => []

/-- `char.charCodeAt(0)` for `char` one element of a string iteration: the
code point, or its high surrogate when it is outside the BMP. -/
def charCodeAt0 (c : Char) : Nat :=
  if c.toNat < 65536 then c.toNat else 55296 + (c.toNat - 65536) / 1024

/-- `Uint8Array.from(s, (char) => char.charCodeAt(0))`: each value is stored
modulo 256. -/
def uint8ArrayFrom (s : String) : List Byte :=
  s.data.map (fun c => (⟨charCodeAt0 c % 256, Nat.mod_lt _ (by decide)⟩ : Byte))

/-- Source line 2: `btoa(String.fromCharCode(...new Uint8Array(arrayBuffer)))`. -/
def encodeBase64 (engine : Engine) (arrayBuffer : Option (List Byte)) :
    Except JsError String :=
  match stringFromCharCode engine (newUint8Array arrayBuffer) with
  | .ok s => btoa s
  | .error e => .error e

/-- Source line 4: `Uint8Array.from(atob(base64), (char) => char.charCodeAt(0))`. -/
def decodeBase64 (base64 : String) : Except JsError (List Byte) :=
  match atob base64 with
  | .ok s => .ok (uint8ArrayFrom s)
  | .error e => .error e

/-! ## Requests, platform results and the browser state -/

/-- The `rp` member of the creation options. -/
structure RelyingParty where
  name : String
  deriving DecidableEq, Repr

/-- The `user` member of the creation options. -/
structure UserEntity where
  id : List Byte
  name : String
  displayName : String
  deriving DecidableEq, Repr

/-- One element of `pubKeyCredParams`. -/
structure PubKeyCredParam where
  alg : Int
  type : String
  deriving DecidableEq, Repr

/-- The `authenticatorSelection` member of the creation options. -/
structure AuthenticatorSelection where
  userVerification : String
  deriving DecidableEq, Repr

/-- The `publicKey` object handed to `navigator.credentials.create`. -/
structure CreationOptions where
  challenge : List Byte
  rp : RelyingParty
  user : UserEntity
  pubKeyCredParams : List PubKeyCredParam
  authenticatorSelection : AuthenticatorSelection
  timeout : Nat
  deriving DecidableEq, Repr

/-- One element of `allowCredentials`. -/
structure CredentialDescriptor where
  type : String
  id : List Byte
  deriving DecidableEq, Repr

/-- The `publicKey` object handed to `navigator.credentials.get`. -/
structure RequestOptions where
  challenge : List Byte
  allowCredentials : List CredentialDescriptor
  userVerification : String
  timeout : Nat
  deriving DecidableEq, Repr

/-- The object a creation ceremony resolves with; `rawId` is `none` when the
object has no such member. -/
structure Credential where
  rawId : Option (List Byte)
  deriving DecidableEq, Repr

/-- The `response` member of an assertion. -/
structure AssertionResponse where
  authenticatorData : Option (List Byte)
  clientDataJSON : Option (List Byte)
  deriving DecidableEq, Repr

/-- The object an assertion ceremony resolves with; `response` is `none`
when it is `null` or `undefined`. -/
structure Assertion where
  response : Option AssertionResponse
  deriving DecidableEq, Repr

/-- How a `navigator.credentials` promise settles: it rejects, or resolves
with an object or with `null` (`resolves none`). -/
inductive Settled (α : Type) where
  | rejects (reason : JsError)
  | resolves (value : Option α)
  deriving DecidableEq, Repr

/-- One line written to the console. -/
inductive ConsoleEntry where
  | logCreationOptions (publicKey : CreationOptions)
  | logRegistration (label : String) (credential : Option Credential)
  | logRequestOptions (publicKey : RequestOptions)
  | logSignIn (label : String) (assertion : Option Assertion)
  | logText (text : String)
  | warn (error : JsError)
  | error (label : String) (error : JsError)
  deriving DecidableEq, Repr

/-- The browser state the component reads and writes. -/
structure World where
  /-- The engine the page runs on; no step changes it. -/
  engine : Engine
  /-- `localStorage`, a map from keys to string values. -/
  localStorage : String → Option String
  /-- The bytes `crypto.getRandomValues` will deliver, in order. -/
  randomSource : Nat → Byte
  /-- The messages shown with `alert`, oldest first. -/
  alerts : List String
  /-- The console, oldest entry first. -/
  console : List ConsoleEntry
  /-- The requests passed to `navigator.credentials.create`, oldest first. -/
  createCalls : List CreationOptions
  /-- The requests passed to `navigator.credentials.get`, oldest first. -/
  getCalls : List RequestOptions

/-- A JavaScript computation: it changes the world and returns or throws. -/
def Js (α : Type) : Type := World → Except JsError α × World

/-- Return a value. -/
def Js.pure {α : Type} (a : α) : Js α := fun w => (.ok a, w)

/-- Sequencing: a throw skips the continuation. -/
def Js.bind {α β : Type} (m : Js α) (f : α → Js β) : Js β := fun w =>
  match m w with
  | (.ok a, w1) => f a w1
  | (.error e, w1) => (.error e, w1)

/-- The statement `try { body } catch (error) { handler }`. -/
def Js.tryCatch {α : Type} (body : Js α) (handler : JsError → Js α) : Js α := fun w =>
  match body w with
  | (.ok a, w1) => (.ok a, w1)
  | (.error e, w1) => handler e w1

instance : Monad Js where
  pure := Js.pure
  bind := Js.bind

/-- Lift a pure computation that may throw. -/
def Js.ofExcept {α : Type} : Except JsError α → Js α
  | .ok a => Js.pure a
  | .error e => fun w => (.error e, w)

/-- A call `encodeBase64(arrayBuffer)` on the engine of the current world. -/
def callEncodeBase64 (arrayBuffer : Option (List Byte)) : Js String := fun w =>
  (encodeBase64 w.engine arrayBuffer, w)

/-- The built-in `alert(message)`. -/
def alert (message : String) : Js Unit := fun w =>
  (.ok (), { w with alerts := w.alerts ++ [message] })

/-- A call of `console.log`, `console.warn` or `console.error`. -/
def consoleWrite (entry : ConsoleEntry) : Js Unit := fun w =>
  (.ok (), { w with console := w.console ++ [entry] })

/-- The built-in `localStorage.getItem(key)`. -/
def localStorageGetItem (key : String) : Js (Option String) := fun w =>
  (.ok (w.localStorage key), w)

/-- The built-in `localStorage.setItem(key, value)`. -/
def localStorageSetItem (key value : String) : Js Unit := fun w =>
  (.ok (), { w with localStorage := fun k => if k = key then some value else w.localStorage k })

/-- The built-in `window.crypto.getRandomValues` on an array of `length`
bytes: the next `length` bytes of the random source. -/
def getRandomValues (length : Nat) : Js (List Byte) := fun w =>
  (.ok ((List.range length).map w.randomSource),
   { w with randomSource := fun i => w.randomSource (i + length) })

/-- Source lines 7-11. -/
def generateChallenge (length : Nat) : Js (List Byte) :=
  getRandomValues length

/-- The call `await navigator.credentials.create({ publicKey })` against a
platform `platform`: the call is recorded, a rejection is thrown. -/
def navigatorCredentialsCreate (platform : CreationOptions → Settled Credential)
    (publicKey : CreationOptions) : Js (Option Credential) := fun w =>
  let w1 := { w with createCalls := w.createCalls ++ [publicKey] }
  match platform publicKey with
  | .rejects e => (.error e, w1)
  | .resolves c => (.ok c, w1)

/-- The call `await navigator.credentials.get({ publicKey })` against a
platform `platform`: the call is recorded, a rejection is thrown. -/
def navigatorCredentialsGet (platform : RequestOptions → Settled Assertion)
    (publicKey : RequestOptions) : Js (Option Assertion) := fun w =>
  let w1 := { w with getCalls := w.getCalls ++ [publicKey] }
  match platform publicKey with
  | .rejects e => (.error e, w1)
  | .resolves a => (.ok a, w1)

/-- `new TextEncoder().encode(s)`: the UTF-8 bytes of `s`. -/
def textEncode (s : String) : List Byte :=
  s.data.flatMap (fun c => (String.utf8EncodeChar c).map (fun u => Fin.ofNat u.toNat))

/-- The storage key the component uses. -/
def credentialKey : String := "webauthnCredentialId"

/-- Member access `credential.rawId`: a `TypeError` on `null`. -/
def Credential.getRawId : Option Credential → Except JsError (Option (List Byte))
  | some c => .ok c.rawId
  | none => .error .typeError

/-- Member access `assertion.response`: a `TypeError` on `null`. -/
def Assertion.getResponse : Option Assertion → Except JsError (Option AssertionResponse)
  | some a => .ok a.response
  | none => .error .typeError

/-- Source lines 20-31: the object literal `publicKeyOptions`, as a function
of the challenge `generateChallenge(32)` returned. -/
def publicKeyOptions (challenge : List Byte) : CreationOptions :=
  { challenge := challenge
    rp := { name := "My WebAuthn App" }
    user := { id := textEncode "user-id-123", name := "Arif", displayName := "Arif" }
    pubKeyCredParams := [{ alg := -7, type := "public-key" }]
    authenticatorSelection := { userVerification := "preferred" }
    timeout := 60000 }

/-- Source lines 58-68: the object literal `publicKeyRequest`, as a function
of the challenge and of the decoded stored identifier. -/
def publicKeyRequest (challenge id : List Byte) : RequestOptions :=
  { challenge := challenge
    allowCredentials := [{ type := "public-key", id := id }]
    userVerification := "preferred"
    timeout := 60000 }

/-- Source lines 19-48. -/
def registerUser (platform : CreationOptions → Settled Credential) : Js Unit := do
  let challenge ← generateChallenge 32
  let options := publicKeyOptions challenge
  consoleWrite (.logCreationOptions options)
  Js.tryCatch
    (do
      let credential ← navigatorCredentialsCreate platform options
      consoleWrite (.logRegistration "Registration successful:" credential)
      let rawId ← Js.ofExcept (Credential.getRawId credential)
      let encoded ← callEncodeBase64 rawId
      localStorageSetItem credentialKey encoded
      alert "Registration successful")
    (fun error => do
      consoleWrite (.warn error)
      alert "Registration failed")

/-- Source lines 50-84. The object literal is evaluated member by member:
the challenge is drawn before the stored identifier is decoded. -/
def signInUser (platform : RequestOptions → Settled Assertion) : Js Unit :=
  Js.tryCatch
    (do
      let storedCredentialId ← localStorageGetItem credentialKey
      match storedCredentialId with
      | none => alert "No registered credential found."
      | some stored =>
        if stored = "" then
          alert "No registered credential found."
        else do
          let challenge ← generateChallenge 32
          let id ← Js.ofExcept (decodeBase64 stored)
          let request := publicKeyRequest challenge id
          consoleWrite (.logRequestOptions request)
          let assertion ← navigatorCredentialsGet platform request
          consoleWrite (.logSignIn "Sign-in successful:" assertion)
          let response ← Js.ofExcept (Assertion.getResponse assertion)
          let authenticatorData ← callEncodeBase64
            (response.bind AssertionResponse.authenticatorData)
          consoleWrite (.logText authenticatorData)
          let clientDataJSON ← callEncodeBase64
            (response.bind AssertionResponse.clientDataJSON)
          consoleWrite (.logText clientDataJSON)
          alert "Sign-in successful")
    (fun error => do
      consoleWrite (.error "Sign-in failed:" error)
      alert "Sign-in failed")

/-- The challenge the next `generateChallenge(32)` returns in `w`. -/
def World.nextChallenge (w : World) : List Byte :=
  (List.range 32).map w.randomSource

/-- A world on the reference engine with empty storage and an all-zero random
source. -/
def World.initial : World :=
  { engine := Engine.reference
    localStorage := fun _ => none
    randomSource := fun _ => 0
    alerts := []
    console := []
    createCalls := []
    getCalls := [] }

/-- The initial world with `value` stored under the component's key. -/
def World.withStored (value : String) : World :=
  { World.initial with
    localStorage := fun k => if k = credentialKey then some value else none }

/-- A mock random source: thirty-two bytes 0, then bytes 1. -/
def World.mockRandom : World :=
  { World.initial with randomSource := fun i => if i < 32 then 0 else 1 }

/-- A buffer of 130000 bytes, more than the reference engine accepts as call
arguments. -/
def overlongBytes : List Byte := List.replicate 130000 0

/-! ## Definitions used to state and prove the base64 laws -/

/-- The 6-bit values `base64Encode` writes, before they become characters. -/
def encodeSextets : List Nat → List Nat
  | a :: b :: c :: rest =>
      let n := a * 65536 + b * 256 + c
      (n / 262144) :: (n / 4096 % 64) :: (n / 64 % 64) :: (n % 64) :: encodeSextets rest
  | [a, b] =>
      let n := a * 65536 + b * 256
      [n / 262144, n / 4096 % 64, n / 64 % 64]
  | [a] =>
      let n := a * 65536
      [n / 262144, n / 4096 % 64]
  | [] => []

/-- The padding `base64Encode` appends. -/
def encodePadding : List Nat → List Char
  | _ :: _ :: _ :: rest => encodePadding rest
  | [_, _] => ['=']
  | [_] => ['=', '=']
  | [] => []

/-! ## Base64 lemmas -/

theorem alphabet_facts :
    ∀ c ∈ base64Alphabet, isAsciiWhitespace c = false ∧ c ≠ '=' ∧ c.toNat ≤ 255 := by
  decide

theorem sextetToChar_mem (n : Nat) : sextetToChar n ∈ base64Alphabet := by
  by_cases h : n < 64
  · have key : ∀ k, k < 64 → sextetToChar k ∈ base64Alphabet := by decide
    exact key n h
  · have hlen : base64Alphabet.length ≤ n := by
      have : base64Alphabet.length = 64 := by decide
      omega
    unfold sextetToChar
    rw [List.getD_eq_default _ _ hlen]
    decide

theorem charToSextet_sextetToChar : ∀ n, n < 64 → charToSextet (sextetToChar n) = some n := by
  decide

theorem base64Encode_eq (ns : List Nat) :
    base64Encode ns = (encodeSextets ns).map sextetToChar ++ encodePadding ns := by
  induction ns using base64Encode.induct with
  | case1 a b c rest ih => simp [base64Encode, encodeSextets, encodePadding, ih]
  | case2 a b => simp [base64Encode, encodeSextets, encodePadding]
  | case3 a => simp [base64Encode, encodeSextets, encodePadding]
  | case4 => simp [base64Encode, encodeSextets, encodePadding]

theorem encodeSextets_lt (ns : List Nat) (h : ∀ n ∈ ns, n < 256) :
    ∀ s ∈ encodeSextets ns, s < 64 := by
  induction ns using base64Encode.induct with
  | case1 a b c rest ih =>
    have ha := h a (by simp)
    have hb := h b (by simp)
    have hc := h c (by simp)
    have hrest := ih (fun n hn => h n (by simp [hn]))
    intro s hs
    simp only [encodeSextets, List.mem_cons] at hs
    rcases hs with rfl | rfl | rfl | rfl | hs
    · omega
    · omega
    · omega
    · omega
    · exact hrest s hs
  | case2 a b =>
    have ha := h a (by simp)
    have hb := h b (by simp)
    intro s hs
    simp only [encodeSextets, List.mem_cons, List.not_mem_nil, or_false] at hs
    rcases hs with rfl | rfl | rfl <;> omega
  | case3 a =>
    have ha := h a (by simp)
    intro s hs
    simp only [encodeSextets, List.mem_cons, List.not_mem_nil, or_false] at hs
    rcases hs with rfl | rfl <;> omega
  | case4 => simp [encodeSextets]

theorem sextetsToBytes_encodeSextets (ns : List Nat) (h : ∀ n ∈ ns, n < 256) :
    sextetsToBytes (encodeSextets ns) = ns := by
  induction ns using base64Encode.induct with
  | case1 a b c rest ih =>
    have ha := h a (by simp)
    have hb := h b (by simp)
    have hc := h c (by simp)
    have hrest := ih (fun n hn => h n (by simp [hn]))
    simp only [encodeSextets, sextetsToBytes, hrest]
    congr 1
    · omega
    · congr 1
      · omega
      · congr 1
        omega
  | case2 a b =>
    have ha := h a (by simp)
    have hb := h b (by simp)
    simp only [encodeSextets, sextetsToBytes]
    congr 1
    · omega
    · congr 1
      omega
  | case3 a =>
    have ha := h a (by simp)
    simp only [encodeSextets, sextetsToBytes]
    congr 1
    omega
  | case4 => simp [encodeSextets, sextetsToBytes]

theorem decodeSextets_map (ss : List Nat) (h : ∀ s ∈ ss, s < 64) :
    decodeSextets (ss.map sextetToChar) = some ss := by
  induction ss with
  | nil => rfl
  | cons s rest ih =>
    have hs := h s (by simp)
    have hrest := ih (fun x hx => h x (by simp [hx]))
    simp [decodeSextets, charToSextet_sextetToChar s hs, hrest]

/-- The number of sextets and the padding go together: 0, 3 or 2 sextets
beyond a multiple of four, with no, one or two `=`. -/
theorem encode_shape (ns : List Nat) :
    ((encodeSextets ns).length % 4 = 0 ∧ encodePadding ns = []) ∨
    ((encodeSextets ns).length % 4 = 3 ∧ encodePadding ns = ['=']) ∨
    ((encodeSextets ns).length % 4 = 2 ∧ encodePadding ns = ['=', '=']) := by
  induction ns using base64Encode.induct with
  | case1 a b c rest ih =>
    simp only [encodeSextets, encodePadding, List.length_cons]
    rcases ih with ⟨h1, h2⟩ | ⟨h1, h2⟩ | ⟨h1, h2⟩
    · left; exact ⟨by omega, h2⟩
    · right; left; exact ⟨by omega, h2⟩
    · right; right; exact ⟨by omega, h2⟩
  | case2 a b => right; left; simp [encodeSextets, encodePadding]
  | case3 a => right; right; simp [encodeSextets, encodePadding]
  | case4 => left; simp [encodeSextets, encodePadding]

theorem getLast?_map_sextetToChar (ss : List Nat) :
    (ss.map sextetToChar).getLast? ≠ some '=' := by
  intro h
  have hmem : '=' ∈ ss.map sextetToChar := List.mem_of_getLast?_eq_some h
  obtain ⟨k, _, hk⟩ := List.mem_map.mp hmem
  have := (alphabet_facts _ (sextetToChar_mem k)).2.1
  exact this hk

theorem removeTrailingEquals_none (ss : List Nat) :
    removeTrailingEquals (ss.map sextetToChar) = ss.map sextetToChar := by
  unfold removeTrailingEquals
  rw [if_neg (getLast?_map_sextetToChar ss)]

theorem removeTrailingEquals_one (ss : List Nat) :
    removeTrailingEquals (ss.map sextetToChar ++ ['=']) = ss.map sextetToChar := by
  unfold removeTrailingEquals
  simp only [List.getLast?_concat, List.dropLast_concat, if_true]
  rw [if_neg (getLast?_map_sextetToChar ss)]

theorem removeTrailingEquals_two (ss : List Nat) :
    removeTrailingEquals (ss.map sextetToChar ++ ['=', '=']) = ss.map sextetToChar := by
  have h : ss.map sextetToChar ++ ['=', '='] = (ss.map sextetToChar ++ ['=']) ++ ['='] := by simp
  rw [h]
  unfold removeTrailingEquals
  simp only [List.getLast?_concat, List.dropLast_concat, if_true]

theorem base64Encode_not_whitespace (ns : List Nat) :
    ∀ c ∈ base64Encode ns, isAsciiWhitespace c = false := by
  intro c hc
  rw [base64Encode_eq, List.mem_append] at hc
  rcases hc with hc | hc
  · obtain ⟨k, _, rfl⟩ := List.mem_map.mp hc
    exact (alphabet_facts _ (sextetToChar_mem k)).1
  · have heq : c = '=' := by
      rcases encode_shape ns with ⟨_, h2⟩ | ⟨_, h2⟩ | ⟨_, h2⟩ <;> rw [h2] at hc <;> simp at hc
      · exact hc
      · exact hc
    rw [heq]
    decide

theorem forgivingBase64Decode_base64Encode (ns : List Nat) (h : ∀ n ∈ ns, n < 256) :
    forgivingBase64Decode (base64Encode ns) = some ns := by
  have hfilter : (base64Encode ns).filter (fun c => !isAsciiWhitespace c) = base64Encode ns := by
    apply List.filter_eq_self.mpr
    intro c hc
    simp [base64Encode_not_whitespace ns c hc]
  have hdec : (decodeSextets ((encodeSextets ns).map sextetToChar)).map sextetsToBytes
      = some ns := by
    rw [decodeSextets_map _ (encodeSextets_lt ns h)]
    simp [sextetsToBytes_encodeSextets ns h]
  unfold forgivingBase64Decode
  simp only [hfilter]
  rw [base64Encode_eq]
  rcases encode_shape ns with ⟨h1, h2⟩ | ⟨h1, h2⟩ | ⟨h1, h2⟩
  · have hlen : ((encodeSextets ns).map sextetToChar ++ ([] : List Char)).length % 4 = 0 := by
      simpa using h1
    rw [h2, if_pos hlen]
    simp only [List.append_nil]
    rw [removeTrailingEquals_none, if_neg (by simp; omega)]
    exact hdec
  · have hlen : ((encodeSextets ns).map sextetToChar ++ ['=']).length % 4 = 0 := by
      simp; omega
    rw [h2, if_pos hlen, removeTrailingEquals_one, if_neg (by simp; omega)]
    exact hdec
  · have hlen : ((encodeSextets ns).map sextetToChar ++ ['=', '=']).length % 4 = 0 := by
      simp; omega
    rw [h2, if_pos hlen, removeTrailingEquals_two, if_neg (by simp; omega)]
    exact hdec

set_option maxRecDepth 100000 in
theorem char_ofNat_byte : ∀ b : Byte, (Char.ofNat b.val).toNat = b.val := by
  decide


theorem stringFromCharCode_facts (bytes : List Byte) :
    (String.mk (bytes.map (fun b => Char.ofNat b.val))).data.all (fun c => c.toNat ≤ 255) = true ∧
    (String.mk (bytes.map (fun b => Char.ofNat b.val))).data.map Char.toNat
      = bytes.map Fin.val := by
  constructor
  · simp only [List.all_eq_true, List.mem_map, decide_eq_true_eq]
    rintro c ⟨b, _, rfl⟩
    rw [char_ofNat_byte]
    omega
  · simp only [List.map_map]
    apply List.map_congr_left
    intro b _
    exact char_ofNat_byte b

/-- Within the engine's limit `encodeBase64` returns the base64 text. -/
theorem encodeBase64_some (engine : Engine) (bytes : List Byte)
    (h : bytes.length ≤ engine.maxArguments) :
    encodeBase64 engine (some bytes) = .ok (String.mk (base64Encode (bytes.map Fin.val))) := by
  obtain ⟨hall, hmap⟩ := stringFromCharCode_facts bytes
  simp only [encodeBase64, newUint8Array, stringFromCharCode, if_pos h, btoa, hall, if_true, hmap]

/-- Above the engine's limit `encodeBase64` throws `RangeError`. -/
theorem encodeBase64_overlong (engine : Engine) (bytes : List Byte)
    (h : engine.maxArguments < bytes.length) :
    encodeBase64 engine (some bytes) = .error .rangeError := by
  simp only [encodeBase64, newUint8Array, stringFromCharCode, if_neg (Nat.not_le.mpr h)]

theorem encodeBase64_none (engine : Engine) : encodeBase64 engine none = .ok "" := by
  simp [encodeBase64, newUint8Array, stringFromCharCode, btoa, base64Encode]

theorem encodeBase64_nil (engine : Engine) : encodeBase64 engine (some []) = .ok "" := by
  simp [encodeBase64, newUint8Array, stringFromCharCode, btoa, base64Encode]

theorem overlongBytes_length : overlongBytes.length = 130000 :=
  List.length_replicate 130000 0

theorem encodeBase64_overlongBytes :
    encodeBase64 Engine.reference (some overlongBytes) = .error .rangeError := by
  apply encodeBase64_overlong
  rw [overlongBytes_length]
  decide

theorem decodeBase64_base64Encode (bytes : List Byte) :
    decodeBase64 (String.mk (base64Encode (bytes.map Fin.val))) = .ok bytes := by
  have hlt : ∀ n ∈ bytes.map Fin.val, n < 256 := by
    intro n hn
    obtain ⟨b, _, rfl⟩ := List.mem_map.mp hn
    exact b.isLt
  have hback : uint8ArrayFrom (String.mk ((bytes.map Fin.val).map Char.ofNat)) = bytes := by
    simp only [uint8ArrayFrom, List.map_map]
    conv_rhs => rw [← List.map_id bytes]
    apply List.map_congr_left
    intro b _
    apply Fin.ext
    simp only [Function.comp, charCodeAt0, char_ofNat_byte, id]
    have := b.isLt
    rw [if_pos (by omega)]
    omega
  simp only [decodeBase64, atob, forgivingBase64Decode_base64Encode _ hlt, hback]

/-- Whenever `encodeBase64` returns, its text is the base64 text of the bytes. -/
theorem encodeBase64_eq_ok (engine : Engine) (bytes : List Byte) (s : String)
    (h : encodeBase64 engine (some bytes) = .ok s) :
    s = String.mk (base64Encode (bytes.map Fin.val)) := by
  by_cases hl : bytes.length ≤ engine.maxArguments
  · rw [encodeBase64_some engine bytes hl] at h
    cases h
    rfl
  · rw [encodeBase64_overlong engine bytes (Nat.lt_of_not_le hl)] at h
    cases h

theorem decodeBase64_encodeBase64 (engine : Engine) (bytes : List Byte) (s : String)
    (h : encodeBase64 engine (some bytes) = .ok s) : decodeBase64 s = .ok bytes := by
  rw [encodeBase64_eq_ok engine bytes s h]
  exact decodeBase64_base64Encode bytes

/-- Wherever `encodeBase64` returns it is injective. -/
theorem encodeBase64_injective (engine : Engine) (a b : List Byte) (s : String)
    (ha : encodeBase64 engine (some a) = .ok s) (hb : encodeBase64 engine (some b) = .ok s) :
    a = b := by
  have h1 := decodeBase64_encodeBase64 engine a s ha
  have h2 := decodeBase64_encodeBase64 engine b s hb
  rw [h1] at h2
  cases h2
  rfl

theorem encodeBase64_ne_empty (engine : Engine) (bytes : List Byte) (s : String)
    (hne : bytes ≠ []) (h : encodeBase64 engine (some bytes) = .ok s) : s ≠ "" := by
  rw [encodeBase64_eq_ok engine bytes s h]
  intro hs
  have hdata : base64Encode (bytes.map Fin.val) = [] := congrArg String.data hs
  cases bytes with
  | nil => exact hne rfl
  | cons a rest =>
    cases rest with
    | nil => simp [base64Encode] at hdata
    | cons b rest =>
      cases rest with
      | nil => simp [base64Encode] at hdata
      | cons c rest => simp [base64Encode] at hdata

/-! ## Test vectors (RFC 4648 and the forgiving decoder) -/

theorem encodeBase64_vectors :
    encodeBase64 Engine.reference (some [77, 97, 110]) = .ok "TWFu" ∧
    encodeBase64 Engine.reference (some [77, 97]) = .ok "TWE=" ∧
    encodeBase64 Engine.reference (some [77]) = .ok "TQ==" ∧
    encodeBase64 Engine.reference (some []) = .ok "" ∧
    encodeBase64 Engine.reference none = .ok "" := by
  decide

theorem decodeBase64_vectors :
    decodeBase64 "TWFu" = .ok [77, 97, 110] ∧
    decodeBase64 "TWE=" = .ok [77, 97] ∧
    decodeBase64 "TQ" = .ok [77] ∧
    decodeBase64 " T Q = =" = .ok [77] ∧
    decodeBase64 "!" = .error .invalidCharacterError ∧
    decodeBase64 "TQ=" = .error .invalidCharacterError := by
  decide

theorem registerUser_vector :
    (registerUser (fun _ => .resolves (some ⟨some [1, 2, 3]⟩)) World.initial).2.localStorage
      credentialKey = some "AQID" := by
  decide

/-! ## The paths of `signInUser` -/

theorem signInUser_absent (platform : RequestOptions → Settled Assertion) (w : World)
    (hs : w.localStorage credentialKey = none) :
    signInUser platform w
      = (.ok (), { w with alerts := w.alerts ++ ["No registered credential found."] }) := by
  simp [signInUser, Js.tryCatch, Bind.bind, Js.bind, localStorageGetItem, alert, hs]

theorem signInUser_empty (platform : RequestOptions → Settled Assertion) (w : World)
    (hs : w.localStorage credentialKey = some "") :
    signInUser platform w
      = (.ok (), { w with alerts := w.alerts ++ ["No registered credential found."] }) := by
  simp [signInUser, Js.tryCatch, Bind.bind, Js.bind, localStorageGetItem, alert, hs]

theorem signInUser_undecodable (platform : RequestOptions → Settled Assertion) (w : World)
    (stored : String) (e : JsError)
    (hs : w.localStorage credentialKey = some stored) (hne : stored ≠ "")
    (hd : decodeBase64 stored = .error e) :
    signInUser platform w
      = (.ok (), { w with
          randomSource := fun i => w.randomSource (i + 32)
          console := w.console ++ [.error "Sign-in failed:" e]
          alerts := w.alerts ++ ["Sign-in failed"] }) := by
  simp [signInUser, Js.tryCatch, Bind.bind, Js.bind, Js.ofExcept, localStorageGetItem, alert,
    consoleWrite, generateChallenge, getRandomValues, hs, hne, hd]

theorem signInUser_rejects (platform : RequestOptions → Settled Assertion) (w : World)
    (stored : String) (id : List Byte) (e : JsError)
    (hs : w.localStorage credentialKey = some stored) (hne : stored ≠ "")
    (hd : decodeBase64 stored = .ok id)
    (hp : platform (publicKeyRequest w.nextChallenge id) = .rejects e) :
    signInUser platform w
      = (.ok (), { w with
          randomSource := fun i => w.randomSource (i + 32)
          console := w.console ++ [.logRequestOptions (publicKeyRequest w.nextChallenge id),
            .error "Sign-in failed:" e]
          getCalls := w.getCalls ++ [publicKeyRequest w.nextChallenge id]
          alerts := w.alerts ++ ["Sign-in failed"] }) := by
  simp only [World.nextChallenge] at hp
  simp [signInUser, Js.tryCatch, Bind.bind, Js.bind, Js.ofExcept, Js.pure, localStorageGetItem,
    alert, consoleWrite, generateChallenge, getRandomValues, navigatorCredentialsGet,
    World.nextChallenge, hs, hne, hd, hp]

theorem signInUser_null (platform : RequestOptions → Settled Assertion) (w : World)
    (stored : String) (id : List Byte)
    (hs : w.localStorage credentialKey = some stored) (hne : stored ≠ "")
    (hd : decodeBase64 stored = .ok id)
    (hp : platform (publicKeyRequest w.nextChallenge id) = .resolves none) :
    signInUser platform w
      = (.ok (), { w with
          randomSource := fun i => w.randomSource (i + 32)
          console := w.console ++ [.logRequestOptions (publicKeyRequest w.nextChallenge id),
            .logSignIn "Sign-in successful:" none, .error "Sign-in failed:" .typeError]
          getCalls := w.getCalls ++ [publicKeyRequest w.nextChallenge id]
          alerts := w.alerts ++ ["Sign-in failed"] }) := by
  simp only [World.nextChallenge] at hp
  simp [signInUser, Js.tryCatch, Bind.bind, Js.bind, Js.ofExcept, Js.pure, localStorageGetItem,
    alert, consoleWrite, generateChallenge, getRandomValues, navigatorCredentialsGet,
    Assertion.getResponse, World.nextChallenge, hs, hne, hd, hp]

theorem signInUser_resolves (platform : RequestOptions → Settled Assertion) (w : World)
    (stored : String) (id : List Byte) (a : Assertion) (s1 s2 : String)
    (hs : w.localStorage credentialKey = some stored) (hne : stored ≠ "")
    (hd : decodeBase64 stored = .ok id)
    (hp : platform (publicKeyRequest w.nextChallenge id) = .resolves (some a))
    (h1 : encodeBase64 w.engine (a.response.bind AssertionResponse.authenticatorData) = .ok s1)
    (h2 : encodeBase64 w.engine (a.response.bind AssertionResponse.clientDataJSON) = .ok s2) :
    signInUser platform w
      = (.ok (), { w with
          randomSource := fun i => w.randomSource (i + 32)
          console := w.console ++ [.logRequestOptions (publicKeyRequest w.nextChallenge id),
            .logSignIn "Sign-in successful:" (some a), .logText s1, .logText s2]
          getCalls := w.getCalls ++ [publicKeyRequest w.nextChallenge id]
          alerts := w.alerts ++ ["Sign-in successful"] }) := by
  simp only [World.nextChallenge] at hp
  simp [signInUser, Js.tryCatch, Bind.bind, Js.bind, Js.ofExcept, Js.pure, localStorageGetItem,
    alert, consoleWrite, generateChallenge, getRandomValues, navigatorCredentialsGet,
    callEncodeBase64, Assertion.getResponse, World.nextChallenge, hs, hne, hd, hp, h1, h2]

/-- The assertion resolves but `authenticatorData` is too long to encode. -/
theorem signInUser_firstEncodeThrows (platform : RequestOptions → Settled Assertion)
    (w : World) (stored : String) (id : List Byte) (a : Assertion) (e : JsError)
    (hs : w.localStorage credentialKey = some stored) (hne : stored ≠ "")
    (hd : decodeBase64 stored = .ok id)
    (hp : platform (publicKeyRequest w.nextChallenge id) = .resolves (some a))
    (h1 : encodeBase64 w.engine (a.response.bind AssertionResponse.authenticatorData)
      = .error e) :
    signInUser platform w
      = (.ok (), { w with
          randomSource := fun i => w.randomSource (i + 32)
          console := w.console ++ [.logRequestOptions (publicKeyRequest w.nextChallenge id),
            .logSignIn "Sign-in successful:" (some a), .error "Sign-in failed:" e]
          getCalls := w.getCalls ++ [publicKeyRequest w.nextChallenge id]
          alerts := w.alerts ++ ["Sign-in failed"] }) := by
  simp only [World.nextChallenge] at hp
  simp [signInUser, Js.tryCatch, Bind.bind, Js.bind, Js.ofExcept, Js.pure, localStorageGetItem,
    alert, consoleWrite, generateChallenge, getRandomValues, navigatorCredentialsGet,
    callEncodeBase64, Assertion.getResponse, World.nextChallenge, hs, hne, hd, hp, h1]

/-- The assertion resolves but `clientDataJSON` is too long to encode. -/
theorem signInUser_secondEncodeThrows (platform : RequestOptions → Settled Assertion)
    (w : World) (stored : String) (id : List Byte) (a : Assertion) (s1 : String) (e : JsError)
    (hs : w.localStorage credentialKey = some stored) (hne : stored ≠ "")
    (hd : decodeBase64 stored = .ok id)
    (hp : platform (publicKeyRequest w.nextChallenge id) = .resolves (some a))
    (h1 : encodeBase64 w.engine (a.response.bind AssertionResponse.authenticatorData) = .ok s1)
    (h2 : encodeBase64 w.engine (a.response.bind AssertionResponse.clientDataJSON)
      = .error e) :
    signInUser platform w
      = (.ok (), { w with
          randomSource := fun i => w.randomSource (i + 32)
          console := w.console ++ [.logRequestOptions (publicKeyRequest w.nextChallenge id),
            .logSignIn "Sign-in successful:" (some a), .logText s1,
            .error "Sign-in failed:" e]
          getCalls := w.getCalls ++ [publicKeyRequest w.nextChallenge id]
          alerts := w.alerts ++ ["Sign-in failed"] }) := by
  simp only [World.nextChallenge] at hp
  simp [signInUser, Js.tryCatch, Bind.bind, Js.bind, Js.ofExcept, Js.pure, localStorageGetItem,
    alert, consoleWrite, generateChallenge, getRandomValues, navigatorCredentialsGet,
    callEncodeBase64, Assertion.getResponse, World.nextChallenge, hs, hne, hd, hp, h1, h2]

/-! ## The paths of `registerUser` -/

theorem registerUser_rejects (platform : CreationOptions → Settled Credential) (w : World)
    (e : JsError) (hp : platform (publicKeyOptions w.nextChallenge) = .rejects e) :
    registerUser platform w
      = (.ok (), { w with
          randomSource := fun i => w.randomSource (i + 32)
          console := w.console ++ [.logCreationOptions (publicKeyOptions w.nextChallenge),
            .warn e]
          createCalls := w.createCalls ++ [publicKeyOptions w.nextChallenge]
          alerts := w.alerts ++ ["Registration failed"] }) := by
  simp only [World.nextChallenge] at hp
  simp [registerUser, Js.tryCatch, Bind.bind, Js.bind, alert, consoleWrite, generateChallenge,
    getRandomValues, navigatorCredentialsCreate, World.nextChallenge, hp]

theorem registerUser_null (platform : CreationOptions → Settled Credential) (w : World)
    (hp : platform (publicKeyOptions w.nextChallenge) = .resolves none) :
    registerUser platform w
      = (.ok (), { w with
          randomSource := fun i => w.randomSource (i + 32)
          console := w.console ++ [.logCreationOptions (publicKeyOptions w.nextChallenge),
            .logRegistration "Registration successful:" none, .warn .typeError]
          createCalls := w.createCalls ++ [publicKeyOptions w.nextChallenge]
          alerts := w.alerts ++ ["Registration failed"] }) := by
  simp only [World.nextChallenge] at hp
  simp [registerUser, Js.tryCatch, Bind.bind, Js.bind, Js.ofExcept, alert, consoleWrite,
    generateChallenge, getRandomValues, navigatorCredentialsCreate, Credential.getRawId,
    World.nextChallenge, hp]

theorem registerUser_resolves (platform : CreationOptions → Settled Credential) (w : World)
    (c : Credential) (encoded : String)
    (hp : platform (publicKeyOptions w.nextChallenge) = .resolves (some c))
    (he : encodeBase64 w.engine c.rawId = .ok encoded) :
    registerUser platform w
      = (.ok (), { w with
          randomSource := fun i => w.randomSource (i + 32)
          console := w.console ++ [.logCreationOptions (publicKeyOptions w.nextChallenge),
            .logRegistration "Registration successful:" (some c)]
          createCalls := w.createCalls ++ [publicKeyOptions w.nextChallenge]
          localStorage := fun k => if k = credentialKey then some encoded else w.localStorage k
          alerts := w.alerts ++ ["Registration successful"] }) := by
  simp only [World.nextChallenge] at hp
  simp [registerUser, Js.tryCatch, Bind.bind, Js.bind, Js.ofExcept, Js.pure, alert, consoleWrite,
    generateChallenge, getRandomValues, navigatorCredentialsCreate, Credential.getRawId,
    callEncodeBase64, localStorageSetItem, World.nextChallenge, hp, he]

/-- The ceremony resolves but the raw identifier is too long to encode: the
throw at source line 42 is caught, nothing is stored. -/
theorem registerUser_encodeThrows (platform : CreationOptions → Settled Credential)
    (w : World) (c : Credential) (e : JsError)
    (hp : platform (publicKeyOptions w.nextChallenge) = .resolves (some c))
    (he : encodeBase64 w.engine c.rawId = .error e) :
    registerUser platform w
      = (.ok (), { w with
          randomSource := fun i => w.randomSource (i + 32)
          console := w.console ++ [.logCreationOptions (publicKeyOptions w.nextChallenge),
            .logRegistration "Registration successful:" (some c), .warn e]
          createCalls := w.createCalls ++ [publicKeyOptions w.nextChallenge]
          alerts := w.alerts ++ ["Registration failed"] }) := by
  simp only [World.nextChallenge] at hp
  simp [registerUser, Js.tryCatch, Bind.bind, Js.bind, Js.ofExcept, Js.pure, alert, consoleWrite,
    generateChallenge, getRandomValues, navigatorCredentialsCreate, Credential.getRawId,
    callEncodeBase64, localStorageSetItem, World.nextChallenge, hp, he]

/-! ## Summaries over all paths -/

/-- What `registerUser` does whatever the platform answers. -/
theorem registerUser_summary (platform : CreationOptions → Settled Credential) (w : World) :
    (registerUser platform w).1 = .ok () ∧
    (registerUser platform w).2.createCalls
      = w.createCalls ++ [publicKeyOptions w.nextChallenge] ∧
    (registerUser platform w).2.getCalls = w.getCalls ∧
    (registerUser platform w).2.engine = w.engine ∧
    ∃ message, (registerUser platform w).2.alerts = w.alerts ++ [message] := by
  cases hp : platform (publicKeyOptions w.nextChallenge) with
  | rejects e =>
    rw [registerUser_rejects platform w e hp]
    exact ⟨rfl, rfl, rfl, rfl, _, rfl⟩
  | resolves c =>
    cases c with
    | none =>
      rw [registerUser_null platform w hp]
      exact ⟨rfl, rfl, rfl, rfl, _, rfl⟩
    | some c =>
      cases he : encodeBase64 w.engine c.rawId with
      | ok encoded =>
        rw [registerUser_resolves platform w c encoded hp he]
        exact ⟨rfl, rfl, rfl, rfl, _, rfl⟩
      | error e =>
        rw [registerUser_encodeThrows platform w c e hp he]
        exact ⟨rfl, rfl, rfl, rfl, _, rfl⟩

/-- What `signInUser` does whatever the storage holds and the platform
answers: it calls the assertion API once, with the decoded stored value, when
that value is a non-empty string `atob` accepts, and not at all otherwise. -/
theorem signInUser_summary (platform : RequestOptions → Settled Assertion) (w : World) :
    (signInUser platform w).1 = .ok () ∧
    (signInUser platform w).2.localStorage = w.localStorage ∧
    (signInUser platform w).2.createCalls = w.createCalls ∧
    (∃ message, (signInUser platform w).2.alerts = w.alerts ++ [message]) ∧
    (((signInUser platform w).2.getCalls = w.getCalls ∧
        ¬ ∃ stored id, w.localStorage credentialKey = some stored ∧ stored ≠ "" ∧
            decodeBase64 stored = .ok id) ∨
      ∃ stored id, w.localStorage credentialKey = some stored ∧ stored ≠ "" ∧
        decodeBase64 stored = .ok id ∧
        (signInUser platform w).2.getCalls
          = w.getCalls ++ [publicKeyRequest w.nextChallenge id]) := by
  cases hs : w.localStorage credentialKey with
  | none =>
    rw [signInUser_absent platform w hs]
    exact ⟨rfl, rfl, rfl, ⟨_, rfl⟩, Or.inl ⟨rfl, by simp⟩⟩
  | some stored =>
    by_cases hne : stored = ""
    · subst hne
      rw [signInUser_empty platform w hs]
      exact ⟨rfl, rfl, rfl, ⟨_, rfl⟩, Or.inl ⟨rfl, by simp⟩⟩
    · cases hd : decodeBase64 stored with
      | error e =>
        rw [signInUser_undecodable platform w stored e hs hne hd]
        refine ⟨rfl, rfl, rfl, ⟨_, rfl⟩, Or.inl ⟨rfl, ?_⟩⟩
        rintro ⟨s, id, h1, _, h3⟩
        cases h1
        rw [hd] at h3
        cases h3
      | ok id =>
        cases hp : platform (publicKeyRequest w.nextChallenge id) with
        | rejects e =>
          rw [signInUser_rejects platform w stored id e hs hne hd hp]
          exact ⟨rfl, rfl, rfl, ⟨_, rfl⟩, Or.inr ⟨stored, id, rfl, hne, hd, rfl⟩⟩
        | resolves a =>
          cases a with
          | none =>
            rw [signInUser_null platform w stored id hs hne hd hp]
            exact ⟨rfl, rfl, rfl, ⟨_, rfl⟩, Or.inr ⟨stored, id, rfl, hne, hd, rfl⟩⟩
          | some a =>
            cases h1 : encodeBase64 w.engine
                (a.response.bind AssertionResponse.authenticatorData) with
            | error e =>
              rw [signInUser_firstEncodeThrows platform w stored id a e hs hne hd hp h1]
              exact ⟨rfl, rfl, rfl, ⟨_, rfl⟩, Or.inr ⟨stored, id, rfl, hne, hd, rfl⟩⟩
            | ok s1 =>
              cases h2 : encodeBase64 w.engine
                  (a.response.bind AssertionResponse.clientDataJSON) with
              | error e =>
                rw [signInUser_secondEncodeThrows platform w stored id a s1 e hs hne hd hp h1 h2]
                exact ⟨rfl, rfl, rfl, ⟨_, rfl⟩, Or.inr ⟨stored, id, rfl, hne, hd, rfl⟩⟩
              | ok s2 =>
                rw [signInUser_resolves platform w stored id a s1 s2 hs hne hd hp h1 h2]
                exact ⟨rfl, rfl, rfl, ⟨_, rfl⟩, Or.inr ⟨stored, id, rfl, hne, hd, rfl⟩⟩

/-! ## The claims -/

/-- C1 as stated fails for a long byte sequence: on the reference engine the
spread call throws `RangeError` for 130000 bytes, so `encodeBase64` returns no
string to decode. -/
theorem C1_overlong_counterexample :
    overlongBytes.length = 130000 ∧
    encodeBase64 Engine.reference (some overlongBytes) = .error .rangeError ∧
    ¬ ∃ s, encodeBase64 Engine.reference (some overlongBytes) = .ok s ∧
        decodeBase64 s = .ok overlongBytes := by
  refine ⟨overlongBytes_length, encodeBase64_overlongBytes, ?_⟩
  rintro ⟨s, hs, _⟩
  rw [encodeBase64_overlongBytes] at hs
  cases hs

/-- C1 (amended): for every byte sequence `b` whose length is within the
engine's limit on call arguments (every engine accepts 65535, so the lengths
0, 1, 16, 32 and 255 are included), `encodeBase64` returns a string and
`decodeBase64` of that string returns a byte sequence of the same length that
is equal to `b`. -/
theorem C1_base64_roundtrip (engine : Engine) (b : List Byte)
    (h : b.length ≤ engine.maxArguments) :
    ∃ s, encodeBase64 engine (some b) = .ok s ∧
      ∃ r, decodeBase64 s = .ok r ∧ r.length = b.length ∧ r = b := by
  have hs := encodeBase64_some engine b h
  exact ⟨_, hs, b, decodeBase64_encodeBase64 engine b _ hs, rfl, rfl⟩

theorem C1_base64_roundtrip_witness :
    (List.replicate 255 (7 : Byte)).length ≤ Engine.reference.maxArguments ∧
    ∃ s, encodeBase64 Engine.reference (some (List.replicate 255 (7 : Byte))) = .ok s ∧
      ∃ r, decodeBase64 s = .ok r ∧ r.length = (List.replicate 255 (7 : Byte)).length ∧
        r = List.replicate 255 (7 : Byte) :=
  ⟨by rw [List.length_replicate]; decide,
   C1_base64_roundtrip Engine.reference (List.replicate 255 7)
    (by rw [List.length_replicate]; decide)⟩

/-- C2: when nothing is stored under "webauthnCredentialId", `signInUser`
returns normally, shows "No registered credential found." and makes no call
to `navigator.credentials.get`. -/
theorem C2_signIn_without_registration (platform : RequestOptions → Settled Assertion)
    (w : World) (h : w.localStorage credentialKey = none) :
    (signInUser platform w).1 = .ok () ∧
    (signInUser platform w).2.alerts = w.alerts ++ ["No registered credential found."] ∧
    (signInUser platform w).2.getCalls = w.getCalls := by
  rw [signInUser_absent platform w h]
  exact ⟨rfl, rfl, rfl⟩

theorem C2_signIn_without_registration_witness :
    World.initial.localStorage credentialKey = none ∧
    (signInUser (fun _ => .resolves none) World.initial).1 = .ok () ∧
    (signInUser (fun _ => .resolves none) World.initial).2.alerts
      = World.initial.alerts ++ ["No registered credential found."] ∧
    (signInUser (fun _ => .resolves none) World.initial).2.getCalls
      = World.initial.getCalls :=
  ⟨rfl, C2_signIn_without_registration (fun _ => .resolves none) World.initial rfl⟩

/-- C3 as stated fails at both ends. For the zero-length identifier,
registration stores the empty string and the sign-in that follows makes no
assertion request. For an identifier of 130000 bytes, `encodeBase64` throws
inside the `try`, registration stores nothing, and the sign-in that follows
makes no assertion request either. -/
theorem C3_identifier_counterexample :
    ((registerUser (fun _ => .resolves (some ⟨some []⟩)) World.initial).2.localStorage
        credentialKey = some "" ∧
      (signInUser (fun _ => .resolves (some ⟨none⟩))
        (registerUser (fun _ => .resolves (some ⟨some []⟩)) World.initial).2).2.getCalls = [] ∧
      (signInUser (fun _ => .resolves (some ⟨none⟩))
        (registerUser (fun _ => .resolves (some ⟨some []⟩)) World.initial).2).2.alerts
        = ["Registration successful", "No registered credential found."]) ∧
    ((registerUser (fun _ => .resolves (some ⟨some overlongBytes⟩))
        World.initial).2.localStorage credentialKey = none ∧
      (signInUser (fun _ => .resolves (some ⟨none⟩))
        (registerUser (fun _ => .resolves (some ⟨some overlongBytes⟩))
          World.initial).2).2.getCalls = [] ∧
      (signInUser (fun _ => .resolves (some ⟨none⟩))
        (registerUser (fun _ => .resolves (some ⟨some overlongBytes⟩))
          World.initial).2).2.alerts
        = ["Registration failed", "No registered credential found."]) := by
  refine ⟨by decide, ?_⟩
  rw [registerUser_encodeThrows (fun _ => .resolves (some ⟨some overlongBytes⟩)) World.initial
    ⟨some overlongBytes⟩ .rangeError rfl encodeBase64_overlongBytes]
  rw [signInUser_absent _ _ rfl]
  exact ⟨rfl, rfl, rfl⟩

/-- C3 (amended): for every raw identifier `r` that is non-empty and whose
length is within the engine's limit on call arguments, when the creation
ceremony resolves with `r`, `registerUser` followed by `signInUser` makes
exactly one assertion request, whose `allowCredentials` has exactly one entry,
of type "public-key" and with id `r`. -/
theorem C3_register_then_signIn (create : CreationOptions → Settled Credential)
    (get : RequestOptions → Settled Assertion) (w : World) (r : List Byte)
    (hp : create (publicKeyOptions w.nextChallenge) = .resolves (some ⟨some r⟩))
    (hr : r ≠ []) (hl : r.length ≤ w.engine.maxArguments) :
    ∃ request,
      (signInUser get (registerUser create w).2).2.getCalls = w.getCalls ++ [request] ∧
      request.allowCredentials = [{ type := "public-key", id := r }] := by
  have he := encodeBase64_some w.engine r hl
  have hne := encodeBase64_ne_empty w.engine r _ hr he
  have hd := decodeBase64_encodeBase64 w.engine r _ he
  rw [registerUser_resolves create w ⟨some r⟩ _ hp he]
  obtain ⟨_, _, _, _, hcalls⟩ := signInUser_summary get
    { w with
      randomSource := fun i => w.randomSource (i + 32)
      console := w.console ++ [.logCreationOptions (publicKeyOptions w.nextChallenge),
        .logRegistration "Registration successful:" (some ⟨some r⟩)]
      createCalls := w.createCalls ++ [publicKeyOptions w.nextChallenge]
      localStorage := fun k =>
        if k = credentialKey then some (String.mk (base64Encode (r.map Fin.val)))
        else w.localStorage k
      alerts := w.alerts ++ ["Registration successful"] }
  rcases hcalls with ⟨_, hno⟩ | ⟨stored, id, hs, _, hdec, hcalls⟩
  · exact absurd ⟨_, r, by simp, hne, hd⟩ hno
  · simp only [if_true] at hs
    cases hs
    rw [hd] at hdec
    cases hdec
    exact ⟨_, hcalls, rfl⟩

theorem C3_register_then_signIn_witness :
    ([1, 2, 3] : List Byte) ≠ [] ∧
    ([1, 2, 3] : List Byte).length ≤ World.initial.engine.maxArguments ∧
    ∃ request,
      (signInUser (fun _ => .resolves none)
        (registerUser (fun _ => .resolves (some ⟨some [1, 2, 3]⟩)) World.initial).2).2.getCalls
        = World.initial.getCalls ++ [request] ∧
      request.allowCredentials = [{ type := "public-key", id := [1, 2, 3] }] :=
  ⟨by decide, by decide,
   C3_register_then_signIn (fun _ => .resolves (some ⟨some [1, 2, 3]⟩)) (fun _ => .resolves none)
    World.initial [1, 2, 3] rfl (by decide) (by decide)⟩

/-- C4: whatever the storage holds, when the creation ceremony fails (the
promise rejects, or resolves with `null`), `registerUser` leaves every stored
value as it was, in particular the one under "webauthnCredentialId", and shows
"Registration failed". -/
theorem C4_failed_registration_keeps_storage (platform : CreationOptions → Settled Credential)
    (w : World)
    (hp : (∃ e, platform (publicKeyOptions w.nextChallenge) = .rejects e) ∨
      platform (publicKeyOptions w.nextChallenge) = .resolves none) :
    (registerUser platform w).2.localStorage credentialKey = w.localStorage credentialKey ∧
    (registerUser platform w).2.localStorage = w.localStorage ∧
    (registerUser platform w).2.alerts = w.alerts ++ ["Registration failed"] := by
  rcases hp with ⟨e, hp⟩ | hp
  · rw [registerUser_rejects platform w e hp]
    exact ⟨rfl, rfl, rfl⟩
  · rw [registerUser_null platform w hp]
    exact ⟨rfl, rfl, rfl⟩

theorem C4_failed_registration_keeps_storage_witness :
    (registerUser (fun _ => .rejects (.domException "NotAllowedError"))
        (World.withStored "AQID")).2.localStorage credentialKey
      = (World.withStored "AQID").localStorage credentialKey ∧
    (registerUser (fun _ => .rejects (.domException "NotAllowedError"))
        (World.withStored "AQID")).2.localStorage = (World.withStored "AQID").localStorage ∧
    (registerUser (fun _ => .rejects (.domException "NotAllowedError"))
        (World.withStored "AQID")).2.alerts
      = (World.withStored "AQID").alerts ++ ["Registration failed"] :=
  C4_failed_registration_keeps_storage (fun _ => .rejects (.domException "NotAllowedError"))
    (World.withStored "AQID") (Or.inl ⟨_, rfl⟩)

/-- C5 as stated fails in two ways. When the second ceremony resolves with an
identifier of 130000 bytes, `encodeBase64` throws inside the `try`, the user
sees "Registration failed" and the store still holds the encoding of the first
identifier. When the two identifiers are equal, the first one is still what
the stored value decodes to. -/
theorem C5_reregistration_counterexample :
    ((registerUser (fun _ => .resolves (some ⟨some overlongBytes⟩))
        (registerUser (fun _ => .resolves (some ⟨some [1, 2, 3]⟩))
          World.initial).2).2.localStorage credentialKey = some "AQID" ∧
      encodeBase64 World.initial.engine (some [1, 2, 3]) = .ok "AQID" ∧
      (registerUser (fun _ => .resolves (some ⟨some overlongBytes⟩))
        (registerUser (fun _ => .resolves (some ⟨some [1, 2, 3]⟩))
          World.initial).2).2.alerts = ["Registration successful", "Registration failed"]) ∧
    ((registerUser (fun _ => .resolves (some ⟨some [1, 2, 3]⟩))
        (registerUser (fun _ => .resolves (some ⟨some [1, 2, 3]⟩))
          World.initial).2).2.localStorage credentialKey = some "AQID" ∧
      decodeBase64 "AQID" = .ok [1, 2, 3]) := by
  refine ⟨?_, by decide⟩
  rw [registerUser_resolves (fun _ => .resolves (some ⟨some [1, 2, 3]⟩)) World.initial
    ⟨some [1, 2, 3]⟩ "AQID" rfl (by decide)]
  rw [registerUser_encodeThrows (fun _ => .resolves (some ⟨some overlongBytes⟩)) _
    ⟨some overlongBytes⟩ .rangeError rfl ?_]
  · exact ⟨by decide, by decide, rfl⟩
  · exact encodeBase64_overlongBytes

/-- C5 (amended): for every pair of raw identifiers `r1` and `r2` with the
length of `r2` within the engine's limit on call arguments, after a
`registerUser` whose ceremony resolves with `r1` followed by a `registerUser`
whose ceremony resolves with `r2`, the value under "webauthnCredentialId" is
`encodeBase64(r2)`, it is the only value there and decodes to `r2`, no other
key has changed, and unless `r1` equals `r2` the stored value is not
`encodeBase64(r1)`. -/
theorem C5_reregistration_overwrites (first second : CreationOptions → Settled Credential)
    (w : World) (r1 r2 : List Byte)
    (h1 : first (publicKeyOptions w.nextChallenge) = .resolves (some ⟨some r1⟩))
    (h2 : second (publicKeyOptions (registerUser first w).2.nextChallenge)
      = .resolves (some ⟨some r2⟩))
    (hl : r2.length ≤ w.engine.maxArguments) :
    ∃ s2, encodeBase64 w.engine (some r2) = .ok s2 ∧
      (registerUser second (registerUser first w).2).2.localStorage credentialKey = some s2 ∧
      (∀ v, (registerUser second (registerUser first w).2).2.localStorage credentialKey
        = some v → v = s2) ∧
      decodeBase64 s2 = .ok r2 ∧
      (∀ k, k ≠ credentialKey →
        (registerUser second (registerUser first w).2).2.localStorage k = w.localStorage k) ∧
      (r1 ≠ r2 → ∀ s1, encodeBase64 w.engine (some r1) = .ok s1 →
        (registerUser second (registerUser first w).2).2.localStorage credentialKey
          ≠ some s1) := by
  have he2 := encodeBase64_some w.engine r2 hl
  have heng : (registerUser first w).2.engine = w.engine :=
    (registerUser_summary first w).2.2.2.1
  have he2w : encodeBase64 (registerUser first w).2.engine (Credential.mk (some r2)).rawId
      = .ok (String.mk (base64Encode (r2.map Fin.val))) := by
    rw [heng]
    exact he2
  have hw2 := registerUser_resolves second (registerUser first w).2 ⟨some r2⟩ _ h2 he2w
  have hother : ∀ k, k ≠ credentialKey →
      (registerUser first w).2.localStorage k = w.localStorage k := by
    intro k hk
    cases he1 : encodeBase64 w.engine (some r1) with
    | ok s1 =>
      rw [registerUser_resolves first w ⟨some r1⟩ s1 h1 he1]
      simp [hk]
    | error e =>
      rw [registerUser_encodeThrows first w ⟨some r1⟩ e h1 he1]
  have hstored : (registerUser second (registerUser first w).2).2.localStorage credentialKey
      = some (String.mk (base64Encode (r2.map Fin.val))) := by
    rw [hw2]
    simp
  refine ⟨_, he2, hstored, ?_, decodeBase64_encodeBase64 w.engine r2 _ he2, ?_, ?_⟩
  · intro v hv
    rw [hstored] at hv
    cases hv
    rfl
  · intro k hk
    rw [hw2]
    simp [hk, hother k hk]
  · intro hne t ht heq
    rw [hstored] at heq
    cases heq
    exact hne (encodeBase64_injective w.engine r1 r2 _ ht he2)

theorem C5_reregistration_overwrites_witness :
    ([4, 5] : List Byte).length ≤ World.initial.engine.maxArguments ∧
    ∃ s2, encodeBase64 World.initial.engine (some [4, 5]) = .ok s2 ∧
      (registerUser (fun _ => .resolves (some ⟨some [4, 5]⟩))
        (registerUser (fun _ => .resolves (some ⟨some [1, 2, 3]⟩))
          World.initial).2).2.localStorage credentialKey = some s2 ∧
      (∀ v, (registerUser (fun _ => .resolves (some ⟨some [4, 5]⟩))
        (registerUser (fun _ => .resolves (some ⟨some [1, 2, 3]⟩))
          World.initial).2).2.localStorage credentialKey = some v → v = s2) ∧
      decodeBase64 s2 = .ok [4, 5] ∧
      (∀ k, k ≠ credentialKey →
        (registerUser (fun _ => .resolves (some ⟨some [4, 5]⟩))
          (registerUser (fun _ => .resolves (some ⟨some [1, 2, 3]⟩))
            World.initial).2).2.localStorage k = World.initial.localStorage k) ∧
      (([1, 2, 3] : List Byte) ≠ [4, 5] →
        ∀ s1, encodeBase64 World.initial.engine (some [1, 2, 3]) = .ok s1 →
        (registerUser (fun _ => .resolves (some ⟨some [4, 5]⟩))
          (registerUser (fun _ => .resolves (some ⟨some [1, 2, 3]⟩))
            World.initial).2).2.localStorage credentialKey ≠ some s1) :=
  ⟨by decide,
   C5_reregistration_overwrites (fun _ => .resolves (some ⟨some [1, 2, 3]⟩))
    (fun _ => .resolves (some ⟨some [4, 5]⟩)) World.initial [1, 2, 3] [4, 5] rfl rfl
    (by decide)⟩

/-- C6: when the random source supplies the 32-byte sequence `c1` and then the
sequence `c2` (the next 64 bytes are `c1` followed by `c2`, `c1` of 32 bytes),
`c2` has 32 bytes too, two successive `generateChallenge(32)` calls return `c1`
and `c2`, `encodeBase64` returns for both, and when the two differ so do their
base64 encodings; wherever `encodeBase64` returns it is injective on byte
sequences. -/
theorem C6_distinct_challenges (w : World) (c1 c2 : List Byte)
    (hlen : c1.length = 32)
    (hsupply : (List.range 64).map w.randomSource = c1 ++ c2) (hne : c1 ≠ c2) :
    c2.length = 32 ∧
    (generateChallenge 32 w).1 = .ok c1 ∧
    (generateChallenge 32 (generateChallenge 32 w).2).1 = .ok c2 ∧
    (∃ s1 s2, encodeBase64 w.engine (some c1) = .ok s1 ∧
      encodeBase64 w.engine (some c2) = .ok s2 ∧ s1 ≠ s2) ∧
    ∀ (engine : Engine) (a b : List Byte) (s : String),
      encodeBase64 engine (some a) = .ok s → encodeBase64 engine (some b) = .ok s → a = b := by
  have hsplit : (List.range 64).map w.randomSource
      = (List.range 32).map w.randomSource
        ++ (List.range 32).map (fun i => w.randomSource (i + 32)) := by
    have h64 : List.range 64 = List.range 32 ++ (List.range 32).map (fun i => 32 + i) :=
      List.range_add 32 32
    rw [h64, List.map_append, List.map_map]
    congr 1
  rw [hsplit] at hsupply
  obtain ⟨hc1, hc2⟩ := List.append_inj hsupply (by simp [hlen])
  have hlen2 : c2.length = 32 := by simp [← hc2]
  have hsup := w.engine.supported
  have he1 := encodeBase64_some w.engine c1 (by omega)
  have he2 := encodeBase64_some w.engine c2 (by omega)
  refine ⟨hlen2, ?_, ?_, ⟨_, _, he1, he2, ?_⟩, encodeBase64_injective⟩
  · simp [generateChallenge, getRandomValues, hc1]
  · simp [generateChallenge, getRandomValues, hc2]
  · intro heq
    exact hne (encodeBase64_injective w.engine c1 c2 _ he1 (heq ▸ he2))

theorem C6_distinct_challenges_witness :
    (List.replicate 32 (1 : Byte)).length = 32 ∧
    (generateChallenge 32 World.mockRandom).1 = .ok (List.replicate 32 (0 : Byte)) ∧
    (generateChallenge 32 (generateChallenge 32 World.mockRandom).2).1
      = .ok (List.replicate 32 (1 : Byte)) ∧
    (∃ s1 s2, encodeBase64 World.mockRandom.engine (some (List.replicate 32 (0 : Byte))) = .ok s1 ∧
      encodeBase64 World.mockRandom.engine (some (List.replicate 32 (1 : Byte))) = .ok s2 ∧
      s1 ≠ s2) ∧
    ∀ (engine : Engine) (a b : List Byte) (s : String),
      encodeBase64 engine (some a) = .ok s → encodeBase64 engine (some b) = .ok s → a = b :=
  C6_distinct_challenges World.mockRandom (List.replicate 32 0) (List.replicate 32 1)
    (by decide) (by decide) (by decide)

/-- C7: whatever the platform does (the promise rejects, resolves with `null`,
or resolves with an object) and whatever the storage holds, `registerUser` and
`signInUser` return normally, make at most one call to their ceremony API and
none to the other one, and show exactly one alert. -/
theorem C7_handlers_contain_errors (create : CreationOptions → Settled Credential)
    (get : RequestOptions → Settled Assertion) (w : World) :
    ((registerUser create w).1 = .ok () ∧
      (∃ calls, calls.length ≤ 1 ∧ (registerUser create w).2.createCalls = w.createCalls ++ calls) ∧
      (registerUser create w).2.getCalls = w.getCalls ∧
      ∃ message, (registerUser create w).2.alerts = w.alerts ++ [message]) ∧
    ((signInUser get w).1 = .ok () ∧
      (∃ calls, calls.length ≤ 1 ∧ (signInUser get w).2.getCalls = w.getCalls ++ calls) ∧
      (signInUser get w).2.createCalls = w.createCalls ∧
      ∃ message, (signInUser get w).2.alerts = w.alerts ++ [message]) := by
  obtain ⟨r1, r2, r3, _, r4⟩ := registerUser_summary create w
  obtain ⟨s1, _, s3, s4, s5⟩ := signInUser_summary get w
  refine ⟨⟨r1, ⟨_, ?_, r2⟩, r3, r4⟩, s1, ?_, s3, s4⟩
  · simp
  · rcases s5 with ⟨h, _⟩ | ⟨_, _, _, _, _, h⟩
    · exact ⟨[], by simp, by simp [h]⟩
    · exact ⟨_, by simp, h⟩

/-- C8: the creation request `registerUser` submits has a 32-byte challenge,
user verification "preferred", timeout 60000 and exactly one public-key
algorithm; when a non-empty decodable value is stored, the assertion request
`signInUser` submits has a 32-byte challenge and the same user-verification
preference and timeout as the creation request. -/
theorem C8_request_parameters (create : CreationOptions → Settled Credential)
    (get : RequestOptions → Settled Assertion) (w : World) (stored : String) (id : List Byte)
    (hs : w.localStorage credentialKey = some stored) (hne : stored ≠ "")
    (hd : decodeBase64 stored = .ok id) :
    ∃ options request,
      (registerUser create w).2.createCalls = w.createCalls ++ [options] ∧
      (signInUser get w).2.getCalls = w.getCalls ++ [request] ∧
      options.challenge.length = 32 ∧ request.challenge.length = 32 ∧
      options.authenticatorSelection.userVerification = "preferred" ∧
      request.userVerification = options.authenticatorSelection.userVerification ∧
      options.timeout = 60000 ∧ request.timeout = options.timeout ∧
      options.pubKeyCredParams.length = 1 := by
  obtain ⟨_, r2, _, _, _⟩ := registerUser_summary create w
  obtain ⟨_, _, _, _, s5⟩ := signInUser_summary get w
  rcases s5 with ⟨_, hno⟩ | ⟨_, id2, _, _, _, h⟩
  · exact absurd ⟨stored, id, hs, hne, hd⟩ hno
  · refine ⟨_, _, r2, h, ?_, ?_, rfl, rfl, rfl, rfl, rfl⟩
    · simp [publicKeyOptions, World.nextChallenge]
    · simp [publicKeyRequest, World.nextChallenge]

theorem C8_request_parameters_witness :
    ∃ options request,
      (registerUser (fun _ => .resolves none) (World.withStored "AQID")).2.createCalls
        = (World.withStored "AQID").createCalls ++ [options] ∧
      (signInUser (fun _ => .resolves none) (World.withStored "AQID")).2.getCalls
        = (World.withStored "AQID").getCalls ++ [request] ∧
      options.challenge.length = 32 ∧ request.challenge.length = 32 ∧
      options.authenticatorSelection.userVerification = "preferred" ∧
      request.userVerification = options.authenticatorSelection.userVerification ∧
      options.timeout = 60000 ∧ request.timeout = options.timeout ∧
      options.pubKeyCredParams.length = 1 :=
  C8_request_parameters (fun _ => .resolves none) (fun _ => .resolves none)
    (World.withStored "AQID") "AQID" [1, 2, 3] rfl (by decide) (by decide)

/-- C9 as stated fails for a stored value `atob` rejects: "!" is a non-empty
string, yet `signInUser` makes no call to the assertion API and shows
"Sign-in failed". -/
theorem C9_undecodable_counterexample :
    (World.withStored "!").localStorage credentialKey = some "!" ∧ "!" ≠ "" ∧
    (signInUser (fun _ => .resolves (some ⟨none⟩)) (World.withStored "!")).2.getCalls
      = (World.withStored "!").getCalls ∧
    (signInUser (fun _ => .resolves (some ⟨none⟩)) (World.withStored "!")).2.alerts
      = ["Sign-in failed"] := by
  decide

/-- C9 (amended): `signInUser` calls the assertion API if and only if the
value stored under "webauthnCredentialId" is a non-empty string that
`decodeBase64` accepts; a stored empty string, which is what `encodeBase64`
gives for a zero-length raw identifier, has the same effect as an absent
value: only the alert "No registered credential found.". -/
theorem C9_signIn_calls_iff (get : RequestOptions → Settled Assertion) (w : World) :
    ((signInUser get w).2.getCalls ≠ w.getCalls ↔
      ∃ stored id, w.localStorage credentialKey = some stored ∧ stored ≠ "" ∧
        decodeBase64 stored = .ok id) ∧
    ((w.localStorage credentialKey = none ∨ w.localStorage credentialKey = some "") →
      signInUser get w
        = (.ok (), { w with alerts := w.alerts ++ ["No registered credential found."] })) ∧
    encodeBase64 w.engine (some []) = .ok "" := by
  refine ⟨?_, ?_, encodeBase64_nil w.engine⟩
  · obtain ⟨_, _, _, _, s5⟩ := signInUser_summary get w
    rcases s5 with ⟨h, hno⟩ | ⟨stored, id, hs, hne, hd, h⟩
    · exact ⟨fun hc => absurd h hc, fun hex => absurd hex hno⟩
    · refine ⟨fun _ => ⟨stored, id, hs, hne, hd⟩, fun _ => ?_⟩
      rw [h]
      simp
  · rintro (h | h)
    · exact signInUser_absent get w h
    · exact signInUser_empty get w h

theorem C9_signIn_calls_iff_witness :
    (signInUser (fun _ => .resolves none) (World.withStored "")
      = (.ok (), { World.withStored "" with
          alerts := (World.withStored "").alerts ++ ["No registered credential found."] })) ∧
    ∃ stored id, (World.withStored "AQID").localStorage credentialKey = some stored ∧
      stored ≠ "" ∧ decodeBase64 stored = .ok id :=
  ⟨(C9_signIn_calls_iff (fun _ => .resolves none) (World.withStored "")).2.1 (Or.inr rfl),
   (C9_signIn_calls_iff (fun _ => .resolves none) (World.withStored "AQID")).1.mp (by decide)⟩

/-- C10: whatever the storage holds and whatever the assertion ceremony does,
`signInUser` leaves `localStorage` as it was, in particular the value under
"webauthnCredentialId". -/
theorem C10_signIn_keeps_storage (get : RequestOptions → Settled Assertion) (w : World) :
    (signInUser get w).2.localStorage = w.localStorage ∧
    (signInUser get w).2.localStorage credentialKey = w.localStorage credentialKey := by
  obtain ⟨_, s2, _⟩ := signInUser_summary get w
  exact ⟨s2, by rw [s2]⟩

end PasswordlessAuth
